import Mathlib

/-!
Verification development for the CX complaints dashboard (src/app.py,
src/data_gen.py): a shallow embedding of the filter-driven query layer,
the KPI aggregators and the analytical ranking query, with theorems about
the spec's testable properties.

Dates are ISO `YYYY-MM-DD` strings stored as TEXT; SQLite compares TEXT
values bytewise (memcmp over the UTF-8 encoding), which on ISO dates
coincides with chronological order, so the model uses `String` with an
explicit lexicographic comparison over code points.
-/

namespace CxDash

/-- One row of the `complaints` table, as produced by `generate_data` in
src/data_gen.py: `complaint_id`, `date` (ISO string), the four enumerated
dimensions, `sla_hours` (int), `amount` (two-decimal number, modelled as a
rational), `customer_id`, `is_escalated` (0/1 int). -/
structure Complaint where
  complaint_id : Nat
  date : String
  country : String
  channel : String
  category : String
  status : String
  sla_hours : Nat
  amount : ℚ
  customer_id : String
  is_escalated : Nat
deriving DecidableEq

/-- The arguments of `get_filtered_data` in src/app.py: the inclusive date
range and the four multi-select dimension values (Python tuples/lists,
modelled as lists). -/
structure FilterSelection where
  date_range : String × String
  countries : List String
  channels : List String
  categories : List String
  statuses : List String
deriving DecidableEq

/-- Lexicographic order on character lists by code point: the comparison
SQLite applies to TEXT columns (memcmp), restricted to the ASCII strings
this schema stores. -/
def lexLe : List Char → List Char → Bool
  | [], _ => true
  | _ :: _, [] => false
  | a :: as, b :: bs =>
    if a.toNat < b.toNat then true
    else if b.toNat < a.toNat then false
    else lexLe as bs

/-- SQLite TEXT comparison `a <= b` on the stored date strings. -/
def dateLe (a b : String) : Bool := lexLe a.data b.data

/-! ### Query Builder (src/app.py lines 21-38) -/

/-- Python `sep.join(xs)`: the elements of `xs` concatenated with `sep`
between consecutive elements. -/
def joinSep (sep : String) : List String → String
  | [] => ""
  | [a] => a
  | a :: b :: rest => a ++ sep ++ joinSep sep (b :: rest)

/-- `",".join(["?"] * n)` from lines 28/31/34/37 of src/app.py. -/
def placeholders (n : Nat) : String :=
  joinSep "," (List.replicate n "?")

/-- The base query text of lines 21-24 of src/app.py. -/
def baseQuery : String :=
  "\n    SELECT * FROM complaints \n    WHERE date BETWEEN ? AND ?\n    "

/-- One `if <dim-values>:` block of lines 27-38 of src/app.py: when the
selected value list is non-empty, append ` AND <dim> IN (?,...,?)` to the
query text and extend the parameter list with the selected values;
otherwise leave both unchanged. -/
def addDim (dim : String) (vals : List String) :
    String × List String → String × List String
  | (query, params) =>
    if vals.isEmpty then (query, params)
    else (query ++ " AND " ++ dim ++ " IN (" ++ placeholders vals.length ++ ")",
          params ++ vals)

/-- The query text and bound-parameter list built by `get_filtered_data`
(src/app.py lines 21-38) before execution. -/
def get_filtered_query (sel : FilterSelection) : String × List String :=
  addDim "status" sel.statuses
    (addDim "category" sel.categories
      (addDim "channel" sel.channels
        (addDim "country" sel.countries
          (baseQuery, [sel.date_range.1, sel.date_range.2]))))

/-- Number of `?` placeholders in a piece of query text. -/
def countQ (s : String) : Nat :=
  s.data.countP (fun c => c = '?')

/-! ### Filtered Dataset Provider (src/app.py line 40) -/

/-- The predicate denoted by the built query: SQL
`date BETWEEN ? AND ?` is inclusive on both ends, and each
`dim IN (?,...)` clause is present exactly when the corresponding value
list is non-empty (an absent clause restricts nothing). -/
def matchesRow (sel : FilterSelection) (r : Complaint) : Bool :=
  dateLe sel.date_range.1 r.date && dateLe r.date sel.date_range.2
    && (sel.countries.isEmpty || decide (r.country ∈ sel.countries))
    && (sel.channels.isEmpty || decide (r.channel ∈ sel.channels))
    && (sel.categories.isEmpty || decide (r.category ∈ sel.categories))
    && (sel.statuses.isEmpty || decide (r.status ∈ sel.statuses))

/-- `pd.read_sql(query, conn, params=params)` on line 40 of src/app.py:
executing the built parameterized query against the Record Store returns
exactly the rows satisfying the built predicate, in storage order. -/
def get_filtered_data (store : List Complaint) (sel : FilterSelection) :
    List Complaint :=
  store.filter (matchesRow sel)

/-! ### KPI Aggregator (src/app.py lines 194-215)

The four `@render.ui` KPI callbacks each read the same reactive Working
Set and render one string (the text of the produced `ui.span`). Python
float formatting (`:.1f`, `:,.0f`) rounds half to even; the model keeps
the arithmetic exact in `ℚ` and applies the same rounding to the exact
value. -/

/-- Digits of a natural number, most significant first (`Nat.repr`). -/
def natDigits (n : Nat) : List Char := (Nat.repr n).data

/-- Insert a `,` after every third character of a reversed digit list:
the grouping performed by Python's `:,` format specifier. -/
def chunk3 : List Char → List Char
  | a :: b :: c :: d :: rest => a :: b :: c :: ',' :: chunk3 (d :: rest)
  | l => l

/-- `f-string` thousands grouping `f"{n:,}"` for a natural number. -/
def groupThousands (n : Nat) : String :=
  String.mk ((chunk3 (natDigits n).reverse).reverse)

/-- Floor of a rational, computed on its reduced numerator and
denominator. -/
def ratFloor (q : ℚ) : ℤ := Int.fdiv q.num q.den

/-- Round a rational to the nearest integer, ties to even: the rounding
Python's `format` applies to float values. -/
def roundHalfEven (q : ℚ) : ℤ :=
  let f := ratFloor q
  let r := q - f
  if r < 1 / 2 then f
  else if 1 / 2 < r then f + 1
  else if f % 2 = 0 then f else f + 1

/-- Python `f"{x:.1f}"`: the value rendered with exactly one decimal. -/
def fmtOneDec (q : ℚ) : String :=
  let n := roundHalfEven (q * 10)
  let m := n.natAbs
  (if n < 0 then "-" else "") ++ Nat.repr (m / 10) ++ "." ++ Nat.repr (m % 10)

/-- The text of the `total_complaints` KPI (src/app.py lines 194-196):
`f"{len(filtered_df()):,}"`. -/
def total_complaints (ws : List Complaint) : String :=
  groupThousands ws.length

/-- `df['is_escalated'].sum()`: the number of escalated rows (each value
is 0 or 1 in the data). -/
def escalatedCount (ws : List Complaint) : Nat :=
  (ws.map (fun r => r.is_escalated)).sum

/-- `df['sla_hours'].sum()`, the numerator of `df['sla_hours'].mean()`. -/
def slaSum (ws : List Complaint) : Nat :=
  (ws.map (fun r => r.sla_hours)).sum

/-- `df['amount'].sum()`. -/
def amountSum (ws : List Complaint) : ℚ :=
  (ws.map (fun r => r.amount)).sum

/-- The escalation rate `(df['is_escalated'].sum() / len(df)) * 100`
(src/app.py line 202), with the zero-division guard of line 201 mapping
the empty Working Set to 0. -/
def escalationRateValue (ws : List Complaint) : ℚ :=
  if ws.length = 0 then 0
  else (escalatedCount ws : ℚ) / (ws.length : ℚ) * 100

/-- The text of the `escalation_rate` KPI (src/app.py lines 198-203):
`"0.0%"` for the empty Working Set, else `f"{rate:.1f}%"`. -/
def escalation_rate (ws : List Complaint) : String :=
  if ws.length = 0 then "0.0%"
  else fmtOneDec (escalationRateValue ws) ++ "%"

/-- The text of the `avg_sla` KPI (src/app.py lines 205-209): `"0.0"`
for the empty Working Set, else `f"{df['sla_hours'].mean():.1f}"`. -/
def avg_sla (ws : List Complaint) : String :=
  if ws.length = 0 then "0.0"
  else fmtOneDec ((slaSum ws : ℚ) / (ws.length : ℚ))

/-- The text of the `total_amount` KPI (src/app.py lines 211-215): `"$0"`
for the empty Working Set, else `f"${df['amount'].sum():,.0f}"`. -/
def total_amount (ws : List Complaint) : String :=
  if ws.length = 0 then "$0"
  else
    let n := roundHalfEven (amountSum ws)
    "$" ++ (if n < 0 then "-" else "") ++ groupThousands n.natAbs

/-- The three-row Record Store of the spec's concrete scenario. Fields
not fixed by the scenario (channel, category, status, customer) carry
arbitrary domain values. -/
def scenarioStore : List Complaint :=
  [⟨1, "2025-01-01", "USA", "Email", "Billing", "Open", 10, 100, "CUST-1", 1⟩,
   ⟨2, "2025-01-02", "UK", "Phone", "Shipping", "Closed", 20, 200, "CUST-2", 0⟩,
   ⟨3, "2025-01-03", "USA", "Chat", "Billing", "Open", 30, 300, "CUST-3", 0⟩]

/-! ### Analytical Ranking Query (src/app.py lines 44-78)

`get_complex_sql_metrics` runs a two-stage SQL query over the whole
store: the `DailyStats` CTE groups by (date, category, country), then
`RankedCategories` adds `RANK() OVER (PARTITION BY country ORDER BY
daily_count DESC)` and `SUM(daily_amount) OVER (ORDER BY date ROWS
BETWEEN UNBOUNDED PRECEDING AND CURRENT ROW)`, and the final select is
truncated by `LIMIT 100`. -/

/-- One row of the `DailyStats` CTE (src/app.py lines 52-61). -/
structure Stage1Row where
  date : String
  category : String
  country : String
  daily_count : Nat
  daily_amount : ℚ
deriving DecidableEq

/-- The distinct `(date, category, country)` grouping keys, in order of
first appearance in the store. -/
def groupKeys (store : List Complaint) : List (String × String × String) :=
  store.foldl
    (fun ks r =>
      if (r.date, r.category, r.country) ∈ ks then ks
      else ks ++ [(r.date, r.category, r.country)])
    []

/-- The `DailyStats` CTE: `GROUP BY date, category, country` with
`COUNT(*)` and `SUM(amount)` per group. -/
def dailyStats (store : List Complaint) : List Stage1Row :=
  (groupKeys store).map (fun k =>
    ⟨k.1, k.2.1, k.2.2,
     (store.filter (fun r =>
        decide (r.date = k.1) && decide (r.category = k.2.1)
          && decide (r.country = k.2.2))).length,
     ((store.filter (fun r =>
        decide (r.date = k.1) && decide (r.category = k.2.1)
          && decide (r.country = k.2.2))).map (fun r => r.amount)).sum⟩)

/-- `RANK() OVER (PARTITION BY country ORDER BY daily_count DESC)`
(src/app.py line 66): one more than the number of rows of the same
country with a strictly larger `daily_count`. -/
def categoryRank (s1 : List Stage1Row) (r : Stage1Row) : Nat :=
  1 + s1.countP (fun t =>
    decide (t.country = r.country) && decide (r.daily_count < t.daily_count))

/-- One output row of the `RankedCategories` CTE (src/app.py lines
62-72). -/
structure RankingRow where
  date : String
  category : String
  country : String
  daily_count : Nat
  daily_amount : ℚ
  category_rank : Nat
  cumulative_amount : ℚ
deriving DecidableEq

/-- The window ordering `ORDER BY date` of the cumulative sum on line 68
of src/app.py. -/
def stage1DateLe (a b : Stage1Row) : Bool := dateLe a.date b.date

/-- Attach both window columns to a date-ordered list of Stage-1 rows:
`category_rank` is computed against the full Stage-1 row set `s1`, and
`cumulative_amount` is the running sum of `daily_amount` along the list
(the `ROWS BETWEEN UNBOUNDED PRECEDING AND CURRENT ROW` frame), with
`acc` the sum of all preceding rows. -/
def attachMetrics (s1 : List Stage1Row) : List Stage1Row → ℚ → List RankingRow
  | [], _ => []
  | r :: rest, acc =>
    { date := r.date, category := r.category, country := r.country,
      daily_count := r.daily_count, daily_amount := r.daily_amount,
      category_rank := categoryRank s1 r,
      cumulative_amount := acc + r.daily_amount } ::
    attachMetrics s1 rest (acc + r.daily_amount)

/-- `get_complex_sql_metrics` (src/app.py lines 44-78): group, rank,
accumulate in ascending date order, and truncate with `LIMIT 100`. -/
def get_complex_sql_metrics (store : List Complaint) : List RankingRow :=
  (attachMetrics (dailyStats store)
    ((dailyStats store).mergeSort stage1DateLe) 0).take 100

/-- A store producing the spec's ranking scenario: on one date in
country USA, two categories tie on `daily_count` 2 and a third has
`daily_count` 1, so the tied categories share rank 1 and the third gets
rank 3. -/
def gapStore : List Complaint :=
  [⟨1, "2025-01-01", "USA", "Email", "Billing", "Open", 10, 10, "CUST-1", 0⟩,
   ⟨2, "2025-01-01", "USA", "Phone", "Billing", "Open", 10, 10, "CUST-2", 0⟩,
   ⟨3, "2025-01-01", "USA", "Chat", "Shipping", "Open", 10, 10, "CUST-3", 0⟩,
   ⟨4, "2025-01-01", "USA", "Email", "Shipping", "Open", 10, 10, "CUST-4", 0⟩,
   ⟨5, "2025-01-01", "USA", "Chat", "Account Access", "Open", 10, 10, "CUST-5", 0⟩]

/-! ### Connection lifecycle (src/app.py lines 17-42 and 50-78)

Both query functions run `conn = sqlite3.connect(DB_PATH)`, then
`pd.read_sql(...)`, then `conn.close()`, with no `try`/`finally` and no
context manager, so an exception raised by `pd.read_sql` propagates
before `conn.close()` executes. The model passes the number of open
handles through the call: `readOk` says whether the underlying read
succeeds, and the second component of the result is the number of
handles still open when the call exits. -/

/-- `get_filtered_data` with its connection lifecycle made explicit. -/
def runGetFilteredData (store : List Complaint) (sel : FilterSelection)
    (readOk : Bool) (openHandles : Nat) :
    Except String (List Complaint) × Nat :=
  let afterConnect := openHandles + 1
  if readOk then (Except.ok (get_filtered_data store sel), afterConnect - 1)
  else (Except.error "read_sql raised", afterConnect)

/-- `get_complex_sql_metrics` with its connection lifecycle made
explicit. -/
def runGetComplexSqlMetrics (store : List Complaint) (readOk : Bool)
    (openHandles : Nat) : Except String (List RankingRow) × Nat :=
  let afterConnect := openHandles + 1
  if readOk then (Except.ok (get_complex_sql_metrics store), afterConnect - 1)
  else (Except.error "read_sql raised", afterConnect)

/-! ### Order lemmas for the date comparison -/

theorem lexLe_trans : ∀ as bs cs, lexLe as bs = true → lexLe bs cs = true →
    lexLe as cs = true := by
  intro as
  induction as with
  | nil => intro bs cs h1 h2; rfl
  | cons a as ih =>
    intro bs cs h1 h2
    cases bs with
    | nil => simp [lexLe] at h1
    | cons b bs =>
      cases cs with
      | nil => simp [lexLe] at h2
      | cons c cs =>
        simp only [lexLe] at h1 h2 ⊢
        rcases Nat.lt_trichotomy a.toNat b.toNat with hab | hab | hab <;>
          rcases Nat.lt_trichotomy b.toNat c.toNat with hbc | hbc | hbc
        · simp [show a.toNat < c.toNat from by omega]
        · simp [show a.toNat < c.toNat from by omega]
        · simp [show ¬ b.toNat < c.toNat from by omega, hbc] at h2
        · simp [show a.toNat < c.toNat from by omega]
        · rw [if_neg (show ¬ a.toNat < b.toNat from by omega),
            if_neg (show ¬ b.toNat < a.toNat from by omega)] at h1
          rw [if_neg (show ¬ b.toNat < c.toNat from by omega),
            if_neg (show ¬ c.toNat < b.toNat from by omega)] at h2
          rw [if_neg (show ¬ a.toNat < c.toNat from by omega),
            if_neg (show ¬ c.toNat < a.toNat from by omega)]
          exact ih bs cs h1 h2
        · simp [show ¬ b.toNat < c.toNat from by omega, hbc] at h2
        · simp [show ¬ a.toNat < b.toNat from by omega, hab] at h1
        · simp [show ¬ a.toNat < b.toNat from by omega, hab] at h1
        · simp [show ¬ a.toNat < b.toNat from by omega, hab] at h1

theorem lexLe_total : ∀ as bs, lexLe as bs = true ∨ lexLe bs as = true := by
  intro as
  induction as with
  | nil => intro bs; exact Or.inl rfl
  | cons a as ih =>
    intro bs
    cases bs with
    | nil => exact Or.inr rfl
    | cons b bs =>
      simp only [lexLe]
      rcases Nat.lt_trichotomy a.toNat b.toNat with h | h | h
      · left; simp [h]
      · rw [if_neg (show ¬ a.toNat < b.toNat from by omega),
          if_neg (show ¬ b.toNat < a.toNat from by omega),
          if_neg (show ¬ b.toNat < a.toNat from by omega),
          if_neg (show ¬ a.toNat < b.toNat from by omega)]
        exact ih bs
      · right; simp [h]

theorem dateLe_trans {a b c : String} (h1 : dateLe a b = true)
    (h2 : dateLe b c = true) : dateLe a c = true :=
  lexLe_trans a.data b.data c.data h1 h2

theorem dateLe_total (a b : String) : dateLe a b = true ∨ dateLe b a = true :=
  lexLe_total a.data b.data

/-! ### Helper lemmas about the Query Builder -/

theorem addDim_snd (dim : String) (vals : List String) (qp : String × List String) :
    (addDim dim vals qp).2 = qp.2 ++ vals := by
  rcases qp with ⟨q, p⟩
  by_cases h : vals.isEmpty
  · simp_all [addDim, List.isEmpty_iff]
  · simp [addDim, h]

/-- The bound-parameter list is the date range followed by the selected
values of each dimension, in the order country, channel, category,
status. -/
theorem get_filtered_query_params (sel : FilterSelection) :
    (get_filtered_query sel).2 =
      [sel.date_range.1, sel.date_range.2] ++ sel.countries ++ sel.channels
        ++ sel.categories ++ sel.statuses := by
  simp [get_filtered_query, addDim_snd, List.append_assoc]

theorem addDim_fst_of_length_eq (dim : String) {v1 v2 : List String}
    {q1 q2 : String × List String} (hlen : v1.length = v2.length)
    (hq : q1.1 = q2.1) : (addDim dim v1 q1).1 = (addDim dim v2 q2).1 := by
  rcases q1 with ⟨a, b⟩; rcases q2 with ⟨c, d⟩
  have he : v1.isEmpty = v2.isEmpty := by
    cases v1 <;> cases v2 <;> simp_all
  by_cases h : v1.isEmpty
  · simp_all [addDim]
  · simp only at hq
    simp [addDim, h, ← he, hq, hlen]

theorem countQ_append (a b : String) : countQ (a ++ b) = countQ a + countQ b := by
  have : (a ++ b).data = a.data ++ b.data := rfl
  simp [countQ, this]

theorem countQ_placeholders (n : Nat) : countQ (placeholders n) = n := by
  induction n with
  | zero => rfl
  | succ m ih =>
      cases m with
      | zero => rfl
      | succ k =>
          have h1 : placeholders (k + 2) = "?" ++ "," ++ placeholders (k + 1) := rfl
          have h2 : countQ "?" = 1 := rfl
          have h3 : countQ "," = 0 := rfl
          rw [h1, countQ_append, countQ_append, ih, h2, h3]
          omega

theorem addDim_countQ {dim : String} (vals : List String)
    {qp : String × List String} (hd : countQ dim = 0)
    (h : countQ qp.1 = qp.2.length) :
    countQ (addDim dim vals qp).1 = (addDim dim vals qp).2.length := by
  rcases qp with ⟨q, p⟩
  by_cases he : vals.isEmpty
  · simpa [addDim, he] using h
  · simp only at h
    simp [addDim, he, countQ_append, countQ_placeholders, hd, h]
    have : countQ " AND " = 0 := rfl
    simp [this]
    have : countQ " IN (" = 0 := rfl
    simp [this]
    have : countQ ")" = 0 := rfl
    simp [this, Nat.add_comm]

/-! ### Helper lemmas about counting and the window columns -/

theorem countP_or_disjoint {α : Type} (p q : α → Bool) :
    ∀ l : List α, (∀ x ∈ l, ¬(p x = true ∧ q x = true)) →
      l.countP (fun x => p x || q x) = l.countP p + l.countP q := by
  intro l
  induction l with
  | nil => intro _; rfl
  | cons a l ih =>
    intro h
    rw [List.countP_cons, List.countP_cons, List.countP_cons,
      ih (fun x hx => h x (List.mem_cons_of_mem a hx))]
    by_cases hp : p a = true <;> by_cases hq : q a = true
    · exact absurd ⟨hp, hq⟩ (h a (List.mem_cons_self a l))
    · simp [hp, hq]; omega
    · simp [hp, hq]; omega
    · simp [hp, hq]

theorem attachMetrics_date_chain (s1 : List Stage1Row) :
    ∀ (l : List Stage1Row) (acc : ℚ),
      List.Chain' (fun a b : Stage1Row => dateLe a.date b.date = true) l →
      List.Chain' (fun a b : RankingRow => dateLe a.date b.date = true)
        (attachMetrics s1 l acc) := by
  intro l
  induction l with
  | nil => intro acc _; simp [attachMetrics]
  | cons x rest ih =>
    intro acc hc
    cases rest with
    | nil => simp [attachMetrics]
    | cons y rest2 =>
      rw [List.chain'_cons] at hc
      simp only [attachMetrics]
      rw [List.chain'_cons]
      refine ⟨hc.1, ?_⟩
      have := ih (acc + x.daily_amount) hc.2
      simpa only [attachMetrics] using this

theorem attachMetrics_cumulative_chain (s1 : List Stage1Row) :
    ∀ (l : List Stage1Row) (acc : ℚ), (∀ x ∈ l, 0 ≤ x.daily_amount) →
      List.Chain' (fun a b : RankingRow => a.cumulative_amount ≤ b.cumulative_amount)
        (attachMetrics s1 l acc) := by
  intro l
  induction l with
  | nil => intro acc _; simp [attachMetrics]
  | cons x rest ih =>
    intro acc hpos
    cases rest with
    | nil => simp [attachMetrics]
    | cons y rest2 =>
      simp only [attachMetrics]
      rw [List.chain'_cons]
      constructor
      · show acc + x.daily_amount ≤ acc + x.daily_amount + y.daily_amount
        have hy : 0 ≤ y.daily_amount := hpos y (by simp)
        linarith
      · have := ih (acc + x.daily_amount)
          (fun z hz => hpos z (List.mem_cons_of_mem x hz))
        simpa only [attachMetrics] using this

/-! ### Claim theorems: query construction -/

/-- C1: the built query text contains no user-supplied value — it depends
only on the sizes of the four dimension value lists (one `?` placeholder
per value), so two Filter Selections with the same per-dimension sizes
produce identical query text; all selected values appear only in the
bound-parameter list, in placeholder order (date range first, then
country, channel, category, status values); and the number of `?`
placeholders in the text equals the length of the parameter list. -/
theorem query_text_parameterized (s1 s2 : FilterSelection)
    (hc : s1.countries.length = s2.countries.length)
    (hh : s1.channels.length = s2.channels.length)
    (hg : s1.categories.length = s2.categories.length)
    (hs : s1.statuses.length = s2.statuses.length) :
    (get_filtered_query s1).1 = (get_filtered_query s2).1 ∧
    (get_filtered_query s1).2 =
      [s1.date_range.1, s1.date_range.2] ++ s1.countries ++ s1.channels
        ++ s1.categories ++ s1.statuses ∧
    countQ (get_filtered_query s1).1 = (get_filtered_query s1).2.length := by
  refine ⟨?_, get_filtered_query_params s1, ?_⟩
  · unfold get_filtered_query
    apply addDim_fst_of_length_eq _ hs
    apply addDim_fst_of_length_eq _ hg
    apply addDim_fst_of_length_eq _ hh
    apply addDim_fst_of_length_eq _ hc
    rfl
  · unfold get_filtered_query
    apply addDim_countQ _ (by rfl)
    apply addDim_countQ _ (by rfl)
    apply addDim_countQ _ (by rfl)
    apply addDim_countQ _ (by rfl)
    rfl

/-- Witness for C1 at two concrete selections with equal per-dimension
sizes but different values and date ranges. -/
theorem query_text_parameterized_witness :
    (get_filtered_query
        ⟨("2025-01-01", "2025-12-31"), ["USA"], [], ["Billing"], []⟩).1 =
      (get_filtered_query
        ⟨("2024-03-04", "2024-05-06"), ["UK"], [], ["Shipping"], []⟩).1 ∧
    (get_filtered_query
        ⟨("2025-01-01", "2025-12-31"), ["USA"], [], ["Billing"], []⟩).2 =
      ["2025-01-01", "2025-12-31", "USA", "Billing"] ∧
    countQ (get_filtered_query
        ⟨("2025-01-01", "2025-12-31"), ["USA"], [], ["Billing"], []⟩).1 = 4 := by
  have h := query_text_parameterized
    ⟨("2025-01-01", "2025-12-31"), ["USA"], [], ["Billing"], []⟩
    ⟨("2024-03-04", "2024-05-06"), ["UK"], [], ["Shipping"], []⟩
    (by decide) (by decide) (by decide) (by decide)
  exact ⟨h.1, h.2.1, by rw [h.2.2]; rfl⟩

/-- C2: when all four dimension value lists are empty, no `IN` clause is
appended — the built text is exactly the base query — and the denoted
predicate is equivalent to the inclusive date-range check alone: an empty
selection restricts nothing. -/
theorem empty_selection_date_only (sel : FilterSelection)
    (hc : sel.countries = []) (hh : sel.channels = [])
    (hg : sel.categories = []) (hs : sel.statuses = []) :
    (get_filtered_query sel).1 = baseQuery ∧
    ∀ r : Complaint, matchesRow sel r =
      (dateLe sel.date_range.1 r.date && dateLe r.date sel.date_range.2) := by
  constructor
  · simp [get_filtered_query, addDim, hc, hh, hg, hs]
  · intro r
    simp [matchesRow, hc, hh, hg, hs]

/-- Witness for C2 at a concrete all-empty selection and row. -/
theorem empty_selection_date_only_witness :
    (get_filtered_query ⟨("2025-01-01", "2025-12-31"), [], [], [], []⟩).1 =
      baseQuery ∧
    matchesRow ⟨("2025-01-01", "2025-12-31"), [], [], [], []⟩
      ⟨1, "2025-06-15", "USA", "Email", "Billing", "Open", 10, 100, "CUST-1", 0⟩ =
      (dateLe "2025-01-01" "2025-06-15" && dateLe "2025-06-15" "2025-12-31") := by
  have h := empty_selection_date_only
    ⟨("2025-01-01", "2025-12-31"), [], [], [], []⟩ rfl rfl rfl rfl
  exact ⟨h.1, h.2 ⟨1, "2025-06-15", "USA", "Email", "Billing", "Open", 10, 100, "CUST-1", 0⟩⟩

/-- C3: a row is returned by `get_filtered_data` exactly when it is in the
store, its date lies in the inclusive range, and for every dimension with
a non-empty selection the row's value is in that selection — clauses
combine conjunctively, and no qualifying row is omitted. -/
theorem filtered_data_characterization (store : List Complaint)
    (sel : FilterSelection) (r : Complaint) :
    r ∈ get_filtered_data store sel ↔
      r ∈ store ∧ dateLe sel.date_range.1 r.date = true ∧
        dateLe r.date sel.date_range.2 = true ∧
        (sel.countries ≠ [] → r.country ∈ sel.countries) ∧
        (sel.channels ≠ [] → r.channel ∈ sel.channels) ∧
        (sel.categories ≠ [] → r.category ∈ sel.categories) ∧
        (sel.statuses ≠ [] → r.status ∈ sel.statuses) := by
  simp only [get_filtered_data, List.mem_filter, matchesRow, Bool.and_eq_true,
    Bool.or_eq_true, decide_eq_true_eq, List.isEmpty_iff, and_assoc,
    ← or_iff_not_imp_left]

/-- Witness for C3: on a concrete two-row store and a country-restricted
selection, the characterization holds for a row that qualifies. -/
theorem filtered_data_characterization_witness :
    (⟨1, "2025-01-01", "USA", "Email", "Billing", "Open", 10, 100, "CUST-1", 1⟩ : Complaint) ∈
      get_filtered_data
        [⟨1, "2025-01-01", "USA", "Email", "Billing", "Open", 10, 100, "CUST-1", 1⟩,
         ⟨2, "2025-01-02", "UK", "Phone", "Shipping", "Closed", 20, 200, "CUST-2", 0⟩]
        ⟨("2025-01-01", "2025-12-31"), ["USA"], [], [], []⟩ := by
  rw [filtered_data_characterization]
  refine ⟨by decide, by decide, by decide, ?_, ?_, ?_, ?_⟩ <;> intro h <;> first
    | decide
    | exact absurd rfl h

/-- C9: when the start of the date range is after its end, nothing is
validated or raised — the two bounds are passed through unchanged as the
first two bound parameters — and executing the built query returns the
empty Working Set on every store. -/
theorem inverted_range_empty (store : List Complaint) (sel : FilterSelection)
    (h : dateLe sel.date_range.1 sel.date_range.2 = false) :
    (get_filtered_query sel).2 =
      [sel.date_range.1, sel.date_range.2] ++ sel.countries ++ sel.channels
        ++ sel.categories ++ sel.statuses ∧
    get_filtered_data store sel = [] := by
  refine ⟨get_filtered_query_params sel, ?_⟩
  rw [get_filtered_data, List.filter_eq_nil_iff]
  intro r _ hr
  rw [matchesRow] at hr
  simp only [Bool.and_eq_true] at hr
  have := dateLe_trans hr.1.1.1.1.1 hr.1.1.1.1.2
  rw [h] at this
  exact Bool.false_ne_true this

/-- Witness for C9 at a concrete inverted range on a one-row store whose
row lies between the (inverted) bounds' reversal. -/
theorem inverted_range_empty_witness :
    (get_filtered_query ⟨("2025-12-31", "2025-01-01"), [], ["Email"], [], []⟩).2 =
      ["2025-12-31", "2025-01-01", "Email"] ∧
    get_filtered_data
      [⟨1, "2025-06-15", "USA", "Email", "Billing", "Open", 10, 100, "CUST-1", 0⟩]
      ⟨("2025-12-31", "2025-01-01"), [], ["Email"], [], []⟩ = [] := by
  have h := inverted_range_empty
    [⟨1, "2025-06-15", "USA", "Email", "Billing", "Open", 10, 100, "CUST-1", 0⟩]
    ⟨("2025-12-31", "2025-01-01"), [], ["Email"], [], []⟩ (by decide)
  exact ⟨h.1, h.2⟩

/-! ### Claim theorems: KPIs -/

/-- C5: on the empty Working Set every KPI returns its defined rendering
and no division or mean is attempted: count renders as `0`,
escalation rate as `0.0%`, average SLA as `0.0` and total amount as
`$0`. -/
theorem kpis_empty_working_set :
    total_complaints [] = "0" ∧ escalation_rate [] = "0.0%" ∧
    avg_sla [] = "0.0" ∧ total_amount [] = "$0" := by
  refine ⟨rfl, rfl, rfl, rfl⟩

unseal Rat.mul Rat.inv Rat.add Rat.sub in
/-- C6: filtering the concrete three-row store with country `USA` over
the full date range keeps exactly the two USA rows and yields KPIs
count `2`, escalation rate `50.0%`, average SLA `20.0` and total amount
`$400`. -/
theorem concrete_scenario_kpis :
    (get_filtered_data scenarioStore
        ⟨("2025-01-01", "2025-12-31"), ["USA"], [], [], []⟩).length = 2 ∧
    total_complaints (get_filtered_data scenarioStore
        ⟨("2025-01-01", "2025-12-31"), ["USA"], [], [], []⟩) = "2" ∧
    escalation_rate (get_filtered_data scenarioStore
        ⟨("2025-01-01", "2025-12-31"), ["USA"], [], [], []⟩) = "50.0%" ∧
    avg_sla (get_filtered_data scenarioStore
        ⟨("2025-01-01", "2025-12-31"), ["USA"], [], [], []⟩) = "20.0" ∧
    total_amount (get_filtered_data scenarioStore
        ⟨("2025-01-01", "2025-12-31"), ["USA"], [], [], []⟩) = "$400" := by
  refine ⟨by decide, by decide, by decide, by decide, by decide⟩

/-- C10: whenever every row's `is_escalated` value is 0 or 1, the
escalation rate `sum(is_escalated) / count * 100` lies in `[0, 100]`,
and it is exactly 0 for the empty Working Set. -/
theorem escalation_rate_bounds (ws : List Complaint)
    (h : ∀ r ∈ ws, r.is_escalated = 0 ∨ r.is_escalated = 1) :
    0 ≤ escalationRateValue ws ∧ escalationRateValue ws ≤ 100 ∧
    escalationRateValue [] = 0 := by
  refine ⟨?_, ?_, rfl⟩ <;> simp only [escalationRateValue] <;>
    by_cases hlen : ws.length = 0
  · simp [hlen]
  · rw [if_neg hlen]
    positivity
  · simp [hlen]
  · rw [if_neg hlen]
    have hsum : escalatedCount ws ≤ ws.length := by
      have hb : ∀ x ∈ ws.map (fun r => r.is_escalated), x ≤ 1 := by
        intro x hx
        rcases List.mem_map.1 hx with ⟨r, hr, rfl⟩
        rcases h r hr with h0 | h0 <;> simp [h0]
      have := List.sum_le_card_nsmul (ws.map (fun r => r.is_escalated)) 1 hb
      simpa [escalatedCount] using this
    have hl : (0 : ℚ) < (ws.length : ℚ) := by
      exact_mod_cast Nat.pos_of_ne_zero hlen
    have h1 : (escalatedCount ws : ℚ) / (ws.length : ℚ) ≤ 1 := by
      rw [div_le_one hl]
      exact_mod_cast hsum
    calc (escalatedCount ws : ℚ) / (ws.length : ℚ) * 100
        ≤ 1 * 100 := by
          apply mul_le_mul_of_nonneg_right h1
          norm_num
      _ = 100 := by norm_num

/-- Witness for C10 on a concrete two-row Working Set with one escalated
row. -/
theorem escalation_rate_bounds_witness :
    (∀ r ∈ ([⟨1, "2025-01-01", "USA", "Email", "Billing", "Open", 10, 100, "CUST-1", 1⟩,
       ⟨2, "2025-01-02", "UK", "Phone", "Shipping", "Closed", 20, 200, "CUST-2", 0⟩] :
        List Complaint), r.is_escalated = 0 ∨ r.is_escalated = 1) ∧
    0 ≤ escalationRateValue
      [⟨1, "2025-01-01", "USA", "Email", "Billing", "Open", 10, 100, "CUST-1", 1⟩,
       ⟨2, "2025-01-02", "UK", "Phone", "Shipping", "Closed", 20, 200, "CUST-2", 0⟩] ∧
    escalationRateValue
      [⟨1, "2025-01-01", "USA", "Email", "Billing", "Open", 10, 100, "CUST-1", 1⟩,
       ⟨2, "2025-01-02", "UK", "Phone", "Shipping", "Closed", 20, 200, "CUST-2", 0⟩] ≤ 100 :=
  ⟨by decide,
   (escalation_rate_bounds _ (by decide)).1,
   (escalation_rate_bounds _ (by decide)).2.1⟩

/-! ### Claim theorems: analytical ranking query -/

/-- C7: `category_rank` follows gap-preserving RANK semantics within a
country partition, ordered by `daily_count` descending: two Stage-1 rows
of the same country with equal `daily_count` share a rank, and a row
whose `daily_count` is the next distinct lower value in that country gets
the shared rank plus the number of rows tied at the higher count. -/
theorem rank_ties_and_gaps (store : List Complaint) (r s : Stage1Row)
    (hr : r ∈ dailyStats store) (hs : s ∈ dailyStats store) :
    (r.country = s.country → r.daily_count = s.daily_count →
      categoryRank (dailyStats store) r = categoryRank (dailyStats store) s) ∧
    (s.country = r.country → s.daily_count < r.daily_count →
      (∀ t ∈ dailyStats store, t.country = r.country →
        ¬(s.daily_count < t.daily_count ∧ t.daily_count < r.daily_count)) →
      categoryRank (dailyStats store) s =
        categoryRank (dailyStats store) r +
          (dailyStats store).countP (fun t =>
            decide (t.country = r.country)
              && decide (t.daily_count = r.daily_count))) := by
  constructor
  · intro hco hct
    have hfun :
        (fun t : Stage1Row =>
          decide (t.country = r.country) && decide (r.daily_count < t.daily_count)) =
        (fun t : Stage1Row =>
          decide (t.country = s.country) && decide (s.daily_count < t.daily_count)) := by
      funext t
      rw [hco, hct]
    unfold categoryRank
    rw [hfun]
  · intro hsc hslt hbetween
    unfold categoryRank
    rw [hsc]
    have hA : (dailyStats store).countP (fun t =>
          decide (t.country = r.country) && decide (s.daily_count < t.daily_count)) =
        (dailyStats store).countP (fun t =>
          (decide (t.country = r.country) && decide (r.daily_count < t.daily_count))
            || (decide (t.country = r.country)
                  && decide (t.daily_count = r.daily_count))) := by
      apply List.countP_congr
      intro t ht
      simp only [Bool.and_eq_true, Bool.or_eq_true, decide_eq_true_eq]
      constructor
      · rintro ⟨hc, hlt⟩
        rcases Nat.lt_trichotomy t.daily_count r.daily_count with h1 | h1 | h1
        · exact absurd ⟨hlt, h1⟩ (hbetween t ht hc)
        · exact Or.inr ⟨hc, h1⟩
        · exact Or.inl ⟨hc, h1⟩
      · rintro (⟨hc, hgt⟩ | ⟨hc, heq⟩)
        · exact ⟨hc, by omega⟩
        · exact ⟨hc, by omega⟩
    have hB : (dailyStats store).countP (fun t =>
          (decide (t.country = r.country) && decide (r.daily_count < t.daily_count))
            || (decide (t.country = r.country)
                  && decide (t.daily_count = r.daily_count))) =
        (dailyStats store).countP (fun t =>
          decide (t.country = r.country) && decide (r.daily_count < t.daily_count))
          + (dailyStats store).countP (fun t =>
              decide (t.country = r.country)
                && decide (t.daily_count = r.daily_count)) := by
      apply countP_or_disjoint
      intro t _
      simp only [Bool.and_eq_true, decide_eq_true_eq]
      rintro ⟨⟨_, h1⟩, ⟨_, h2⟩⟩
      omega
    rw [hA, hB]
    omega

unseal Rat.mul Rat.inv Rat.add Rat.sub in
/-- Witness for C7 on a concrete store realizing the spec's ranking
scenario: in country USA, Billing and Shipping tie at `daily_count` 2 and
both take rank 1, and the next distinct lower count takes rank 3 (1 plus
the 2 tied rows), not 2. -/
theorem rank_ties_and_gaps_witness :
    ((⟨"2025-01-01", "Billing", "USA", 2, 20⟩ : Stage1Row) ∈ dailyStats gapStore) ∧
    ((⟨"2025-01-01", "Account Access", "USA", 1, 10⟩ : Stage1Row) ∈ dailyStats gapStore) ∧
    categoryRank (dailyStats gapStore) ⟨"2025-01-01", "Billing", "USA", 2, 20⟩ =
      categoryRank (dailyStats gapStore) ⟨"2025-01-01", "Shipping", "USA", 2, 20⟩ ∧
    categoryRank (dailyStats gapStore) ⟨"2025-01-01", "Account Access", "USA", 1, 10⟩ =
      categoryRank (dailyStats gapStore) ⟨"2025-01-01", "Billing", "USA", 2, 20⟩ +
        (dailyStats gapStore).countP (fun t =>
          decide (t.country = "USA") && decide (t.daily_count = 2)) ∧
    categoryRank (dailyStats gapStore) ⟨"2025-01-01", "Billing", "USA", 2, 20⟩ = 1 ∧
    categoryRank (dailyStats gapStore) ⟨"2025-01-01", "Account Access", "USA", 1, 10⟩ = 3 := by
  refine ⟨by decide, by decide, ?_, ?_, by decide, by decide⟩
  · exact (rank_ties_and_gaps gapStore
      ⟨"2025-01-01", "Billing", "USA", 2, 20⟩
      ⟨"2025-01-01", "Shipping", "USA", 2, 20⟩
      (by decide) (by decide)).1 rfl rfl
  · exact (rank_ties_and_gaps gapStore
      ⟨"2025-01-01", "Billing", "USA", 2, 20⟩
      ⟨"2025-01-01", "Account Access", "USA", 1, 10⟩
      (by decide) (by decide)).2 rfl (by decide) (by decide)

/-- C8: `cumulative_amount` is a single global running sum of
`daily_amount` in ascending date order, not partitioned by country, so
for any store with non-negative amounts the output rows — produced in
ascending date order — carry a monotonically non-decreasing
`cumulative_amount`. -/
theorem cumulative_monotone (store : List Complaint)
    (h : ∀ r ∈ store, 0 ≤ r.amount) :
    List.Chain' (fun a b : RankingRow => dateLe a.date b.date = true)
      (get_complex_sql_metrics store) ∧
    List.Chain' (fun a b : RankingRow => a.cumulative_amount ≤ b.cumulative_amount)
      (get_complex_sql_metrics store) := by
  have hpos : ∀ x ∈ (dailyStats store).mergeSort stage1DateLe,
      0 ≤ x.daily_amount := by
    intro x hx
    rw [List.mem_mergeSort] at hx
    rcases List.mem_map.1 hx with ⟨k, hk, rfl⟩
    apply List.sum_nonneg
    intro a ha
    rcases List.mem_map.1 ha with ⟨c, hc, rfl⟩
    exact h c (List.mem_filter.1 hc).1
  have htrans : ∀ a b c : Stage1Row,
      stage1DateLe a b → stage1DateLe b c → stage1DateLe a c := by
    intro a b c hab hbc
    exact dateLe_trans hab hbc
  have htotal : ∀ a b : Stage1Row, stage1DateLe a b || stage1DateLe b a := by
    intro a b
    rcases dateLe_total a.date b.date with hd | hd <;> simp [stage1DateLe, hd]
  have hsorted := List.sorted_mergeSort htrans htotal (dailyStats store)
  constructor
  · exact (attachMetrics_date_chain (dailyStats store) _ 0 hsorted.chain').take 100
  · exact (attachMetrics_cumulative_chain (dailyStats store) _ 0 hpos).take 100

/-- Witness for C8 on the concrete three-row store: all amounts are
non-negative and the output chain is monotone. -/
theorem cumulative_monotone_witness :
    (∀ r ∈ scenarioStore, 0 ≤ r.amount) ∧
    List.Chain' (fun a b : RankingRow => dateLe a.date b.date = true)
      (get_complex_sql_metrics scenarioStore) ∧
    List.Chain' (fun a b : RankingRow => a.cumulative_amount ≤ b.cumulative_amount)
      (get_complex_sql_metrics scenarioStore) :=
  ⟨by decide,
   (cumulative_monotone scenarioStore (by decide)).1,
   (cumulative_monotone scenarioStore (by decide)).2⟩

/-! ### Claim theorems: connection lifecycle -/

/-- C4 is violated by the code: the connection opened by
`sqlite3.connect` is closed on the success path, but when the underlying
read raises there is no `try`/`finally`, so `conn.close()` is skipped and
one handle remains open on the failure exit path — in both
`get_filtered_data` and `get_complex_sql_metrics`. -/
theorem connection_not_released_on_failure (store : List Complaint)
    (sel : FilterSelection) (n : Nat) :
    (runGetFilteredData store sel true n).2 = n ∧
    (runGetFilteredData store sel false n).2 = n + 1 ∧
    (runGetComplexSqlMetrics store true n).2 = n ∧
    (runGetComplexSqlMetrics store false n).2 = n + 1 := by
  refine ⟨rfl, rfl, rfl, rfl⟩

end CxDash
